import Mathlib

/-!
Shallow embedding of the remax-realestate-website-backend core:
the role/onboarding state machine (`RoleController`), the agent
verification workflow (`AgentController`), office creation
(`OfficeController.createOffice`) and the property authorization helper
(`canManageProperty`) together with property assignment
(`PropertyController.assignProperty`) and saved searches
(`UserController.addSavedSearch`).

Modelling conventions:
- Mongo ObjectIds are `Nat`; absent/null references are `Option Nat`.
- A document collection is a `List` of document structures; `findById`
  is `List.find?` on the id and `save` replaces the document with the
  matching id in place.
- `req.user` is the full User document loaded by the `authenticateToken`
  middleware (`User.findById(decoded.userId)`); consequently it carries
  exactly the fields of the User schema in `models/User.ts`.
- JavaScript string enum fields become inductive types; request-body
  strings that are validated against string lists stay `String`.
- Date-valued fields (timestamps, `lastUpdated`, `deletedAt`,
  `appliedAt`) are omitted: no modelled behavior depends on real time.
- Fallible controller actions return `Except AppError α` where
  `AppError` mirrors `utils/AppError` (message and HTTP status code).
-/

/-- HTTP-level application error, as thrown via `new AppError(message, status)`. -/
structure AppError where
  message : String
  statusCode : Nat
deriving Repr, DecidableEq

/-- Account roles, the `role` enum of the User schema. -/
inductive Role
  | buyer
  | seller
  | agent
  | manager
  | admin
deriving Repr, DecidableEq

/-- Values of `agentVerificationStatus` on the User schema. -/
inductive VerificationStatus
  | none
  | pending
  | verified
  | rejected
deriving Repr, DecidableEq

/-- Values of the Property `status` enum. -/
inductive PropertyStatus
  | active
  | pending
  | sold
  | offMarket
deriving Repr, DecidableEq

/-- The per-role `onboardingCompleted` boolean map of the User schema. -/
structure OnboardingFlags where
  buyer : Bool
  seller : Bool
  agent : Bool
deriving Repr, DecidableEq

/-- Reading `user.onboardingCompleted[user.role]` in JavaScript: the map only
has `buyer`, `seller` and `agent` keys, so indexing it with `manager` or
`admin` yields `undefined`, which is falsy. -/
def OnboardingFlags.lookup (f : OnboardingFlags) : Role → Bool
  | Role.buyer => f.buyer
  | Role.seller => f.seller
  | Role.agent => f.agent
  | Role.manager => false
  | Role.admin => false

/-- Filters of a saved search, as pushed by onboarding and `addSavedSearch`.
The source stores them as `Schema.Types.Mixed`; the fields actually written
by the controllers are modelled. -/
structure SearchFilters where
  propertyTypes : List String
  priceRange : Option (List Int)
  locations : List String
  bedrooms : Option Nat
  bathrooms : Option Nat
deriving Repr, DecidableEq

/-- A SavedSearch subdocument of the User schema. -/
structure SavedSearch where
  name : String
  filters : SearchFilters
  emailAlerts : Bool
  frequency : String
deriving Repr, DecidableEq

/-- The `sellerData` object written by seller onboarding. -/
structure SellerData where
  hasProperty : Bool
  propertyType : Option String
  estimatedValue : Option Int
  planToSell : Option String
  propertyAddress : Option String
deriving Repr, DecidableEq

/-- The `preferences` object of the User schema, plus the `sellerData`
object the seller-onboarding helper spreads into it. -/
structure Preferences where
  propertyTypes : List String
  priceRange : List Int
  locations : List String
  notifications : Bool
  sellerData : Option SellerData
deriving Repr, DecidableEq

/-- A User document (`models/User.ts`), restricted to the fields the
embedded operations read or write. Note the office reference field of the
schema is named `officeId` and the Agent Profile reference is `agentId`. -/
structure UserDoc where
  id : Nat
  role : Role
  onboardingCompleted : OnboardingFlags
  isProfileComplete : Bool
  agentVerificationStatus : VerificationStatus
  agentId : Option Nat
  officeId : Option Nat
  savedSearches : List SavedSearch
  preferences : Preferences
deriving Repr, DecidableEq

/-- Reading `user.office` on an authenticated User document. The User schema
declares no `office` path (its office reference is the `officeId` field), and
`authenticateToken` attaches the bare User document to `req.user`, so the
access evaluates to `undefined`. -/
def UserDoc.office (_ : UserDoc) : Option Nat := Option.none

/-- An Agent Profile document (`models/Agent.ts`), restricted to the fields
the embedded operations read or write. -/
structure AgentDoc where
  id : Nat
  userId : Nat
  bio : String
  licenseNumber : String
  office : Option Nat
  isActive : Bool
deriving Repr, DecidableEq

/-- A Property document (`models/Property.ts`), restricted to the fields the
embedded operations read or write. The schema declares `listingAgent` as a
reference to the Agent collection and `listingOffice` as a reference to the
Office collection; `submitProperty` explicitly stores them as `null`, so both
are optional here. -/
structure PropertyDoc where
  id : Nat
  listingAgent : Option Nat
  listingOffice : Option Nat
  seller : Option Nat
  status : PropertyStatus
deriving Repr, DecidableEq

/-- Derived office statistics (`statistics` on the Office schema);
`lastUpdated` (a Date) is omitted. -/
structure OfficeStats where
  totalAgents : Nat
  activeListings : Nat
  soldThisYear : Nat
  totalVolume : Nat
  averageSalePrice : Nat
  averageDaysOnMarket : Nat
deriving Repr, DecidableEq

/-- An Office document (`models/Office.ts`), restricted to the fields the
embedded operations read or write; `name` stands for the descriptive
whitelisted fields (description, address, phone, ...) copied verbatim from
the request body. -/
structure OfficeDoc where
  id : Nat
  name : String
  franchiseId : String
  manager : Nat
  agents : List Nat
  statistics : OfficeStats
  isActive : Bool
deriving Repr, DecidableEq

/-- The document store: one list per collection plus a fresh-id counter
standing for ObjectId generation. -/
structure St where
  users : List UserDoc
  agents : List AgentDoc
  offices : List OfficeDoc
  properties : List PropertyDoc
  nextId : Nat
deriving Repr, DecidableEq

/-- Model of `User.findById(id)`. -/
def findUser (uid : Nat) (st : St) : Option UserDoc :=
  st.users.find? (fun u => u.id == uid)

/-- Model of `Agent.findById(id)`. -/
def findAgent (aid : Nat) (st : St) : Option AgentDoc :=
  st.agents.find? (fun a => a.id == aid)

/-- Model of `Property.findById(id)`. -/
def findProperty (pid : Nat) (st : St) : Option PropertyDoc :=
  st.properties.find? (fun p => p.id == pid)

/-- Model of `user.save()`: replace the document with the same id. -/
def saveUser (u : UserDoc) (st : St) : St :=
  { st with users := st.users.map (fun x => if x.id == u.id then u else x) }

/-- Model of `agent.save()`: replace the document with the same id. -/
def saveAgent (a : AgentDoc) (st : St) : St :=
  { st with agents := st.agents.map (fun x => if x.id == a.id then a else x) }

/-- Model of `property.save()`: replace the document with the same id. -/
def saveProperty (p : PropertyDoc) (st : St) : St :=
  { st with properties := st.properties.map (fun x => if x.id == p.id then p else x) }

/-- Role-based access helper `canManageProperty(user, property)` from the
property controller. The source compares
`user.office?.toString() === property.listingOffice?.toString()` and
`user._id?.toString() === property.listingAgent?.toString()`; with ids
rendered injectively by `toString`, optional-chaining equality of the two
sides is equality of the corresponding `Option Nat` values. -/
def canManageProperty (user : UserDoc) (property : PropertyDoc) : Bool :=
  if user.role == Role.admin then true
  else if user.role == Role.manager && user.office == property.listingOffice then true
  else if user.role == Role.agent && Option.some user.id == property.listingAgent then true
  else false

/-- Empty preferences object, used for concrete test accounts. -/
def emptyPreferences : Preferences :=
  { propertyTypes := [], priceRange := [0, 1000000], locations := [],
    notifications := true, sellerData := Option.none }

/-- Empty filters object, used for concrete saved searches. -/
def emptyFilters : SearchFilters :=
  { propertyTypes := [], priceRange := Option.none, locations := [],
    bedrooms := Option.none, bathrooms := Option.none }

/-- A manager account whose office reference (`officeId`) is office 5. -/
def managerOfOffice5 : UserDoc :=
  { id := 2, role := Role.manager,
    onboardingCompleted := { buyer := false, seller := false, agent := false },
    isProfileComplete := false, agentVerificationStatus := VerificationStatus.none,
    agentId := Option.some 20, officeId := Option.some 5,
    savedSearches := [], preferences := emptyPreferences }

/-- A property listed under office 5 by agent profile 30. -/
def propertyOfOffice5 : PropertyDoc :=
  { id := 100, listingAgent := Option.some 30, listingOffice := Option.some 5,
    seller := Option.none, status := PropertyStatus.active }

/-- A property with no listing office (as stored by `submitProperty`). -/
def propertyWithoutOffice : PropertyDoc :=
  { id := 101, listingAgent := Option.none, listingOffice := Option.none,
    seller := Option.some 9, status := PropertyStatus.pending }

/-- C3: the manager-scope rule of `canManageProperty` does not compare the
actor's office reference with the property's `listingOffice`: it reads
`user.office`, a path absent from the User schema (whose field is
`officeId`), which is always `undefined`. Hence a manager whose `officeId`
is office 5 is denied on a property whose `listingOffice` is office 5, while
the same manager is allowed on a property whose `listingOffice` is unset. -/
theorem C3_manager_scope_check_broken :
    canManageProperty managerOfOffice5 propertyOfOffice5 = false ∧
    canManageProperty managerOfOffice5 propertyWithoutOffice = true := by
  decide

/-- An agent account: account id 1, owning Agent Profile 10. -/
def agentAccount1 : UserDoc :=
  { id := 1, role := Role.agent,
    onboardingCompleted := { buyer := false, seller := false, agent := false },
    isProfileComplete := false, agentVerificationStatus := VerificationStatus.verified,
    agentId := Option.some 10, officeId := Option.none,
    savedSearches := [], preferences := emptyPreferences }

/-- A property whose `listingAgent` is Agent Profile 10 (the profile owned by
account 1, e.g. as assigned through `assignProperty`). -/
def propertyListedByProfile10 : PropertyDoc :=
  { id := 102, listingAgent := Option.some 10, listingOffice := Option.some 5,
    seller := Option.none, status := PropertyStatus.active }

/-- A property whose `listingAgent` happens to equal account id 1, which is
not an Agent Profile id. -/
def propertyListingAgentIsAccount1 : PropertyDoc :=
  { id := 103, listingAgent := Option.some 1, listingOffice := Option.some 5,
    seller := Option.none, status := PropertyStatus.active }

/-- C4: the agent-scope rule of `canManageProperty` compares
`property.listingAgent` with the account id `user._id`, not with the
actor's Agent Profile id (`user.agentId`), although the Property schema
declares `listingAgent` as a reference to the Agent collection. The agent
owning profile 10 is denied on a property listed by profile 10, yet allowed
on a property whose `listingAgent` equals the account id 1. -/
theorem C4_agent_scope_compares_account_id :
    canManageProperty agentAccount1 propertyListedByProfile10 = false ∧
    canManageProperty agentAccount1 propertyListingAgentIsAccount1 = true := by
  decide

/-- Replacement/lookup lemma for the save-then-find pattern: after mapping a
replacement of every document whose key matches `key a`, a `find?` for that
key returns the replacement, provided some document with that key was in the
list. -/
theorem find?_map_replace {α : Type} (key : α → Nat) (l : List α) (a : α) (k : Nat)
    (hk : key a = k) (h : ∃ x ∈ l, key x = k) :
    (l.map fun x => if key x == key a then a else x).find? (fun x => key x == k)
      = Option.some a := by
  induction l with
  | nil => simp at h
  | cons y ys ih =>
    obtain ⟨x, hx, hxk⟩ := h
    simp only [List.map_cons]
    by_cases hy : key y = key a
    · have hyA : (key y == key a) = true := by simpa using hy
      have hak : (key a == k) = true := by simpa using hk
      simp [List.find?_cons, hyA, hak]
    · have hyA : (key y == key a) = false := by simpa using hy
      have hyk : (key y == k) = false := by
        subst hk
        simpa using fun hcontra => hy hcontra
      have hmem : ∃ x ∈ ys, key x = k := by
        rcases List.mem_cons.mp hx with rfl | hmem
        · exact absurd (hxk.trans hk.symm) hy
        · exact ⟨x, hmem, hxk⟩
      simp only [hyA, Bool.false_eq_true, if_false, List.find?_cons, hyk]
      exact ih hmem

/-- Specialization of `find?_map_replace` to `saveUser`/`findUser`. -/
theorem findUser_saveUser (st : St) (u v : UserDoc) (uid : Nat)
    (hv : findUser uid st = Option.some v) (hid : u.id = v.id) :
    findUser uid (saveUser u st) = Option.some u := by
  unfold findUser at hv
  have hvk := List.find?_some hv
  have hvid : v.id = uid := by simpa using hvk
  have hmem : v ∈ st.users := List.mem_of_find?_eq_some hv
  unfold findUser saveUser
  exact find?_map_replace UserDoc.id st.users u uid (hid.trans hvid)
    ⟨v, hmem, hvid⟩

/-- Specialization of `find?_map_replace` to `saveAgent`/`findAgent`. -/
theorem findAgent_saveAgent (st : St) (a b : AgentDoc) (aid : Nat)
    (hb : findAgent aid st = Option.some b) (hid : a.id = b.id) :
    findAgent aid (saveAgent a st) = Option.some a := by
  unfold findAgent at hb
  have hbk := List.find?_some hb
  have hbid : b.id = aid := by simpa using hbk
  have hmem : b ∈ st.agents := List.mem_of_find?_eq_some hb
  unfold findAgent saveAgent
  exact find?_map_replace AgentDoc.id st.agents a aid (hid.trans hbid)
    ⟨b, hmem, hbid⟩

/-- Onboarding payload (`req.body.onboardingData`), with the buyer fields and
the seller fields the two private helpers read. Absent optional values are
`Option.none`; list fields absent from the body behave as `[]` (both are
falsy/empty in every read of the source). -/
structure OnboardingData where
  propertyTypes : List String
  priceRange : Option (List Int)
  locations : List String
  notifications : Option Bool
  bedrooms : Option Nat
  bathrooms : Option Nat
  emailAlerts : Bool
  hasProperty : Bool
  propertyType : Option String
  estimatedValue : Option Int
  planToSell : Option String
  propertyAddress : Option String
deriving Repr, DecidableEq

namespace RoleController

/-- Private helper `completeBuyerOnboarding(user, data)`: replaces
`user.preferences` with the buyer preferences object and, when property
types or locations were given, pushes the seeded default saved search
(note: with no capacity check). -/
def completeBuyerOnboardingStep (user : UserDoc) (data : OnboardingData) : UserDoc :=
  let prefs : Preferences :=
    { propertyTypes := data.propertyTypes
      priceRange := data.priceRange.getD [0, 1000000]
      locations := data.locations
      notifications := data.notifications != Option.some false
      sellerData := Option.none }
  let user := { user with preferences := prefs }
  if data.propertyTypes.length > 0 || data.locations.length > 0 then
    { user with savedSearches := user.savedSearches ++
        [{ name := "My Initial Search"
           filters :=
             { propertyTypes := data.propertyTypes
               priceRange := data.priceRange
               locations := data.locations
               bedrooms := data.bedrooms
               bathrooms := data.bathrooms }
           emailAlerts := data.emailAlerts
           frequency := "weekly" }] }
  else user

/-- Private helper `completeSellerOnboarding(user, data)`. -/
def completeSellerOnboardingStep (user : UserDoc) (data : OnboardingData) : UserDoc :=
  if data.hasProperty then
    let sd : SellerData :=
      { hasProperty := true
        propertyType := data.propertyType
        estimatedValue := data.estimatedValue
        planToSell := data.planToSell
        propertyAddress := data.propertyAddress }
    { user with preferences := { user.preferences with sellerData := Option.some sd } }
  else user

/-- `RoleController.selectRole`: self-service primary-role selection.
Returns the new store plus the saved user document (whose fields feed the
JSON response). The source does not touch `isProfileComplete`. -/
def selectRole (actorId : Option Nat) (targetId : Nat) (role : String) (st : St) :
    Except AppError (St × UserDoc) :=
  if actorId != Option.some targetId then
    Except.error { message := "Unauthorized access", statusCode := 403 }
  else if !(["buyer", "seller", "agent"].contains role) then
    Except.error { message := "Invalid role. Must be buyer, seller, or agent", statusCode := 400 }
  else
    match findUser targetId st with
    | Option.none => Except.error { message := "User not found", statusCode := 404 }
    | Option.some user =>
      let newRole := if role == "buyer" then Role.buyer
                     else if role == "seller" then Role.seller
                     else Role.agent
      let user :=
        { user with
            role := newRole
            agentVerificationStatus :=
              if role == "agent" then VerificationStatus.none
              else user.agentVerificationStatus }
      Except.ok (saveUser user st, user)

/-- Success path of `completeOnboarding`: the document the controller
saves. Applies the role-specific helper, sets `onboardingCompleted[role]`,
and raises `isProfileComplete` when `onboardingCompleted[user.role]` holds
after the update. -/
def onboardingResultUser (user : UserDoc) (role : String) (data : OnboardingData) :
    UserDoc :=
  let user := if role == "buyer" then completeBuyerOnboardingStep user data
              else completeSellerOnboardingStep user data
  let flags := if role == "buyer" then { user.onboardingCompleted with buyer := true }
               else { user.onboardingCompleted with seller := true }
  let user := { user with onboardingCompleted := flags }
  if user.onboardingCompleted.lookup user.role then
    { user with isProfileComplete := true }
  else user

/-- `RoleController.completeOnboarding`: buyer/seller onboarding. Applies
the role-specific helper, marks `onboardingCompleted[role]`, and sets
`isProfileComplete` to true exactly when `onboardingCompleted[user.role]`
holds after the update (it is never lowered). Returns the new store plus
the saved user document. -/
def completeOnboarding (actorId : Option Nat) (targetId : Nat) (role : String)
    (data : OnboardingData) (st : St) : Except AppError (St × UserDoc) :=
  if actorId != Option.some targetId then
    Except.error { message := "Unauthorized access", statusCode := 403 }
  else
    match findUser targetId st with
    | Option.none => Except.error { message := "User not found", statusCode := 404 }
    | Option.some user =>
      if !(["buyer", "seller"].contains role) then
        Except.error
          { message := "Invalid role. Only buyer and seller onboarding are handled here."
            statusCode := 400 }
      else
        let user := onboardingResultUser user role data
        Except.ok (saveUser user st, user)

end RoleController


deriving instance DecidableEq for Except

/-- Account 1: a buyer who completed buyer onboarding, so
`isProfileComplete` is true and `onboardingCompleted.buyer` is true. -/
def buyerDone : UserDoc :=
  { id := 1, role := Role.buyer,
    onboardingCompleted := { buyer := true, seller := false, agent := false },
    isProfileComplete := true, agentVerificationStatus := VerificationStatus.none,
    agentId := Option.none, officeId := Option.none,
    savedSearches := [], preferences := emptyPreferences }

/-- Store holding only `buyerDone`. -/
def c1St : St :=
  { users := [buyerDone], agents := [], offices := [], properties := [], nextId := 50 }

/-- The document `selectRole` saves when `buyerDone` switches to seller. -/
def c1After : UserDoc := { buyerDone with role := Role.seller }

/-- C1 fails on the code: `selectRole` changes `primaryRole` without
recomputing `isProfileComplete`. Immediately after account 1 (a buyer with
a complete profile) selects the seller role, the persisted document has
`isProfileComplete = true` while `onboardingCompleted[primaryRole]`
(= `onboardingCompleted.seller`) is false. -/
theorem C1_counterexample :
    RoleController.selectRole (Option.some 1) 1 "seller" c1St
        = Except.ok (saveUser c1After c1St, c1After) ∧
    findUser 1 (saveUser c1After c1St) = Option.some c1After ∧
    c1After.isProfileComplete = true ∧
    c1After.onboardingCompleted.lookup c1After.role = false := by
  refine ⟨?_, ?_, ?_, ?_⟩ <;> decide

/-- The buyer-onboarding helper does not change `role`, `isProfileComplete`,
`onboardingCompleted` or `id`. -/
theorem buyerStep_preserves (user : UserDoc) (data : OnboardingData) :
    (RoleController.completeBuyerOnboardingStep user data).role = user.role ∧
    (RoleController.completeBuyerOnboardingStep user data).isProfileComplete
        = user.isProfileComplete ∧
    (RoleController.completeBuyerOnboardingStep user data).onboardingCompleted
        = user.onboardingCompleted ∧
    (RoleController.completeBuyerOnboardingStep user data).id = user.id := by
  unfold RoleController.completeBuyerOnboardingStep
  split <;> exact ⟨rfl, rfl, rfl, rfl⟩

/-- The seller-onboarding helper does not change `role`, `isProfileComplete`,
`onboardingCompleted` or `id`. -/
theorem sellerStep_preserves (user : UserDoc) (data : OnboardingData) :
    (RoleController.completeSellerOnboardingStep user data).role = user.role ∧
    (RoleController.completeSellerOnboardingStep user data).isProfileComplete
        = user.isProfileComplete ∧
    (RoleController.completeSellerOnboardingStep user data).onboardingCompleted
        = user.onboardingCompleted ∧
    (RoleController.completeSellerOnboardingStep user data).id = user.id := by
  unfold RoleController.completeSellerOnboardingStep
  split <;> exact ⟨rfl, rfl, rfl, rfl⟩

/-- The saved onboarding document keeps the account's primary role and id. -/
theorem onboardingResultUser_role_id (user : UserDoc) (role : String)
    (data : OnboardingData) :
    (RoleController.onboardingResultUser user role data).role = user.role ∧
    (RoleController.onboardingResultUser user role data).id = user.id := by
  obtain ⟨hbr, hbp, hbo, hbi⟩ := buyerStep_preserves user data
  obtain ⟨hsr, hsp, hso, hsi⟩ := sellerStep_preserves user data
  unfold RoleController.onboardingResultUser
  dsimp only
  constructor <;> split_ifs <;> simp_all

/-- The saved onboarding document's `isProfileComplete` is the disjunction of
the updated `onboardingCompleted[primaryRole]` with the previous flag. -/
theorem onboardingResultUser_isProfileComplete (user : UserDoc) (role : String)
    (data : OnboardingData) :
    (RoleController.onboardingResultUser user role data).isProfileComplete
      = ((RoleController.onboardingResultUser user role data).onboardingCompleted.lookup
          (RoleController.onboardingResultUser user role data).role
        || user.isProfileComplete) := by
  obtain ⟨hbr, hbp, hbo, hbi⟩ := buyerStep_preserves user data
  obtain ⟨hsr, hsp, hso, hsi⟩ := sellerStep_preserves user data
  unfold RoleController.onboardingResultUser
  dsimp only
  split_ifs <;> simp_all

/-- C1 amended: after a successful `completeOnboarding` the saved document
has `isProfileComplete = onboardingCompleted[primaryRole] ∨ (previous
isProfileComplete)` — the flag is raised when the primary role's onboarding
is complete but never lowered — while a successful `selectRole` changes the
primary role leaving `isProfileComplete` untouched, so the claimed equality
need not hold after `selectRole`. -/
theorem C1_amended_derivation (actorId : Option Nat) (targetId : Nat)
    (roleStr : String) (data : OnboardingData) (st st' : St) (u u' : UserDoc)
    (hu : findUser targetId st = Option.some u) :
    (RoleController.selectRole actorId targetId roleStr st = Except.ok (st', u') →
        u'.isProfileComplete = u.isProfileComplete ∧
        findUser targetId st' = Option.some u') ∧
    (RoleController.completeOnboarding actorId targetId roleStr data st
            = Except.ok (st', u') →
        u'.role = u.role ∧
        u'.isProfileComplete
            = (u'.onboardingCompleted.lookup u'.role || u.isProfileComplete) ∧
        findUser targetId st' = Option.some u') := by
  constructor
  · intro h
    unfold RoleController.selectRole at h
    by_cases h1 : (actorId != Option.some targetId) = true
    · rw [if_pos h1] at h
      simp at h
    · rw [if_neg h1] at h
      by_cases h2 : (!(["buyer", "seller", "agent"].contains roleStr)) = true
      · rw [if_pos h2] at h
        simp at h
      · rw [if_neg h2] at h
        rw [hu] at h
        dsimp only at h
        simp only [Except.ok.injEq, Prod.mk.injEq] at h
        obtain ⟨hst, hu'⟩ := h
        subst hst
        subst hu'
        refine ⟨rfl, ?_⟩
        exact findUser_saveUser st _ u targetId hu rfl
  · intro h
    unfold RoleController.completeOnboarding at h
    by_cases h1 : (actorId != Option.some targetId) = true
    · rw [if_pos h1] at h
      simp at h
    · rw [if_neg h1] at h
      rw [hu] at h
      dsimp only at h
      by_cases h2 : (!(["buyer", "seller"].contains roleStr)) = true
      · rw [if_pos h2] at h
        simp at h
      · rw [if_neg h2] at h
        simp only [Except.ok.injEq, Prod.mk.injEq] at h
        obtain ⟨hst, hu'⟩ := h
        subst hst
        subst hu'
        refine ⟨(onboardingResultUser_role_id u roleStr data).1, ?_, ?_⟩
        · exact onboardingResultUser_isProfileComplete u roleStr data
        · exact findUser_saveUser st _ u targetId hu
            (onboardingResultUser_role_id u roleStr data).2

/-- An empty seller-onboarding payload. -/
def c1Data : OnboardingData :=
  { propertyTypes := [], priceRange := Option.none, locations := [],
    notifications := Option.none, bedrooms := Option.none, bathrooms := Option.none,
    emailAlerts := false, hasProperty := false, propertyType := Option.none,
    estimatedValue := Option.none, planToSell := Option.none,
    propertyAddress := Option.none }

/-- The document saved when account 1 completes seller onboarding. -/
def c1AfterOnb : UserDoc := RoleController.onboardingResultUser buyerDone "seller" c1Data

/-- Concrete instantiation of `C1_amended_derivation`: account 1 completes
seller onboarding while its primary role is buyer; the derived equality of
the amended claim holds at that input. -/
theorem C1_amended_witness :
    c1AfterOnb.role = buyerDone.role ∧
    c1AfterOnb.isProfileComplete
        = (c1AfterOnb.onboardingCompleted.lookup c1AfterOnb.role
          || buyerDone.isProfileComplete) ∧
    findUser 1 (saveUser c1AfterOnb c1St) = Option.some c1AfterOnb :=
  (C1_amended_derivation (Option.some 1) 1 "seller" c1Data c1St
    (saveUser c1AfterOnb c1St) buyerDone c1AfterOnb (by decide)).2 rfl

/-- If `find?` misses on the first list, searching the concatenation searches
the second list. -/
theorem find?_append_none {α : Type} (p : α → Bool) (l₁ l₂ : List α)
    (h : l₁.find? p = Option.none) : (l₁ ++ l₂).find? p = l₂.find? p := by
  induction l₁ with
  | nil => rfl
  | cons y ys ih =>
    by_cases hy : p y = true
    · rw [List.find?_cons_of_pos _ hy] at h
      exact absurd h (by simp)
    · rw [List.find?_cons_of_neg _ hy] at h
      rw [List.cons_append, List.find?_cons_of_neg _ hy]
      exact ih h

/-- If `find?` misses, `filter` with the same predicate is empty. -/
theorem filter_eq_nil_of_find?_none {α : Type} (p : α → Bool) (l : List α)
    (h : l.find? p = Option.none) : l.filter p = [] := by
  induction l with
  | nil => rfl
  | cons y ys ih =>
    by_cases hy : p y = true
    · rw [List.find?_cons_of_pos _ hy] at h
      exact absurd h (by simp)
    · rw [List.find?_cons_of_neg _ hy] at h
      simp only [List.filter_cons, hy, Bool.false_eq_true, if_false]
      exact ih h

namespace AgentController

/-- Application payload of `POST /api/agents/apply`; the license and
descriptive fields are copied verbatim onto the created Agent Profile. -/
structure ApplyBody where
  bio : String
  licenseNumber : String
  office : Option Nat
deriving Repr, DecidableEq

/-- The Agent Profile document `Agent.create` builds inside `apply`: the
body fields are copied verbatim, `isActive` starts false, and the store
issues a fresh id. -/
def newAgentProfile (uid : Nat) (body : ApplyBody) (st : St) : AgentDoc :=
  { id := st.nextId, userId := uid, bio := body.bio,
    licenseNumber := body.licenseNumber, office := body.office,
    isActive := false }

/-- `AgentController.apply`: an authenticated user applies to become an
agent. Fails when the account is already verified or an Agent Profile for
the account exists; otherwise creates the profile with `isActive = false`
and moves the account to `pending` with `agentId` set. -/
def apply (actorId : Option Nat) (body : ApplyBody) (st : St) :
    Except AppError (St × AgentDoc) :=
  match actorId with
  | Option.none => Except.error { message := "Unauthorized access", statusCode := 403 }
  | Option.some uid =>
    match findUser uid st with
    | Option.none => Except.error { message := "User not found", statusCode := 404 }
    | Option.some user =>
      if user.agentVerificationStatus == VerificationStatus.verified then
        Except.error { message := "You are already a verified agent", statusCode := 400 }
      else
        match st.agents.find? (fun a => a.userId == uid) with
        | Option.some _ =>
          Except.error { message := "Agent application already submitted", statusCode := 400 }
        | Option.none =>
          let agent := newAgentProfile uid body st
          let stc : St := { st with agents := st.agents ++ [agent], nextId := st.nextId + 1 }
          let user :=
            { user with agentVerificationStatus := VerificationStatus.pending,
                        agentId := Option.some agent.id }
          Except.ok (saveUser user stc, agent)

/-- `AgentController.verifyAgent`: an admin approves or rejects an agent.
The profile's `isActive` becomes `action === "approve"`; the owning
account's status becomes `verified` for the exact string `approve` and
`rejected` for every other action value; the account update is skipped when
the populated owner is missing. -/
def verifyAgent (actor : Option UserDoc) (agentDocId : Nat) (action : String) (st : St) :
    Except AppError St :=
  if (actor.map (fun u => u.role)) != Option.some Role.admin then
    Except.error { message := "Unauthorized access", statusCode := 403 }
  else
    match findAgent agentDocId st with
    | Option.none => Except.error { message := "Agent not found", statusCode := 404 }
    | Option.some agent =>
      let agent2 := { agent with isActive := action == "approve" }
      let st2 := saveAgent agent2 st
      let status := if action == "approve" then VerificationStatus.verified
                    else VerificationStatus.rejected
      match findUser agent.userId st2 with
      | Option.some owner =>
        Except.ok (saveUser { owner with agentVerificationStatus := status } st2)
      | Option.none => Except.ok st2

end AgentController

/-- A concrete application payload. -/
def applyBody0 : AgentController.ApplyBody :=
  { bio := "bio", licenseNumber := "L-1", office := Option.none }

/-- Account 1 before any agent application. -/
def freshApplicant : UserDoc :=
  { id := 1, role := Role.agent,
    onboardingCompleted := { buyer := false, seller := false, agent := false },
    isProfileComplete := false, agentVerificationStatus := VerificationStatus.none,
    agentId := Option.none, officeId := Option.none,
    savedSearches := [], preferences := emptyPreferences }

/-- An admin account (the authenticated actor of admin-only endpoints). -/
def adminUser : UserDoc :=
  { id := 99, role := Role.admin,
    onboardingCompleted := { buyer := false, seller := false, agent := false },
    isProfileComplete := false, agentVerificationStatus := VerificationStatus.none,
    agentId := Option.none, officeId := Option.none,
    savedSearches := [], preferences := emptyPreferences }

/-- Store holding only the fresh applicant. -/
def c2St : St :=
  { users := [freshApplicant], agents := [], offices := [], properties := [], nextId := 10 }

/-- Scenario refuting C2: account 1 applies (reaching `pending` with a
profile), an admin rejects the application, and the now-`rejected` account
re-applies. The re-application hits the existing-profile check — rejection
deactivates but does not remove the Agent Profile — and fails. -/
def c2Run : Bool :=
  match AgentController.apply (Option.some 1) applyBody0 c2St with
  | Except.ok (st1, a) =>
    match AgentController.verifyAgent (Option.some adminUser) a.id "reject" st1 with
    | Except.ok st2 =>
      (match findUser 1 st2 with
       | Option.some u => u.agentVerificationStatus == VerificationStatus.rejected
       | Option.none => false)
      &&
      (match AgentController.apply (Option.some 1) applyBody0 st2 with
       | Except.error e =>
         e.message == "Agent application already submitted" && e.statusCode == 400
       | Except.ok _ => false)
    | Except.error _ => false
  | Except.error _ => false

/-- C2 fails on the code: a rejected account cannot re-`apply()` and reach
`pending` again, because its Agent Profile from the first application still
exists and `apply` fails with the duplicate-application conflict. The
concrete run in `c2Run` reaches the rejected state through the code's own
operations and then observes the failing re-application. -/
theorem C2_counterexample : c2Run = true := by decide

/-- C2 amended: `apply()` fails with the 400 conflict whenever the account
is already verified or any Agent Profile exists for it; since rejection
keeps the profile, a rejected account can never re-reach `pending` via
`apply()`, and a verified account always gets the conflict. -/
theorem C2_amended_conflict (uid : Nat) (body : AgentController.ApplyBody)
    (st : St) (u : UserDoc) (hu : findUser uid st = Option.some u)
    (hblock : u.agentVerificationStatus = VerificationStatus.verified ∨
      (st.agents.find? (fun a => a.userId == uid)).isSome = true) :
    ∃ e, AgentController.apply (Option.some uid) body st = Except.error e ∧
      e.statusCode = 400 ∧
      (e.message = "You are already a verified agent" ∨
       e.message = "Agent application already submitted") := by
  unfold AgentController.apply
  dsimp only
  rw [hu]
  dsimp only
  by_cases hv : (u.agentVerificationStatus == VerificationStatus.verified) = true
  · rw [if_pos hv]
    exact ⟨_, rfl, rfl, Or.inl rfl⟩
  · rw [if_neg hv]
    rcases hblock with hverified | hprof
    · exact absurd (by simp [hverified]) hv
    · obtain ⟨a, ha⟩ := Option.isSome_iff_exists.mp hprof
      rw [ha]
      exact ⟨_, rfl, rfl, Or.inr rfl⟩

/-- A rejected account that still owns Agent Profile 50. -/
def rejectedWithProfile : UserDoc :=
  { id := 1, role := Role.agent,
    onboardingCompleted := { buyer := false, seller := false, agent := false },
    isProfileComplete := false, agentVerificationStatus := VerificationStatus.rejected,
    agentId := Option.some 50, officeId := Option.none,
    savedSearches := [], preferences := emptyPreferences }

/-- Agent Profile 50, owned by account 1 and inactive after rejection. -/
def profile50 : AgentDoc :=
  { id := 50, userId := 1, bio := "bio", licenseNumber := "L-1",
    office := Option.none, isActive := false }

/-- Store with the rejected account and its retained profile. -/
def c2wSt : St :=
  { users := [rejectedWithProfile], agents := [profile50], offices := [],
    properties := [], nextId := 60 }

/-- Concrete instantiation of `C2_amended_conflict`: the rejected account 1
with retained profile 50 gets the duplicate-application conflict. -/
theorem C2_amended_witness :
    ∃ e, AgentController.apply (Option.some 1) applyBody0 c2wSt = Except.error e ∧
      e.statusCode = 400 ∧
      (e.message = "You are already a verified agent" ∨
       e.message = "Agent application already submitted") :=
  C2_amended_conflict 1 applyBody0 c2wSt rejectedWithProfile (by decide)
    (Or.inr (by decide))

/-- A secondary index declaration of a Mongoose schema: the indexed field
paths and whether the index is declared unique. -/
structure SchemaIndex where
  fields : List String
  unique : Bool
deriving Repr, DecidableEq

/-- Uniqueness option of the `userId` path of the Agent schema
(`models/Agent.ts`): the path is declared `required: true` and `ref: "User"`
with no `unique` option. -/
def agentSchemaUserIdUnique : Bool := false

/-- The secondary indexes declared on the Agent schema: a compound index on
office and isActive and an index on specialties; neither is unique and
neither covers `userId`. -/
def agentSchemaIndexes : List SchemaIndex :=
  [ { fields := ["office", "isActive"], unique := false },
    { fields := ["specialties"], unique := false } ]

/-- C5 fails on the code in its storage-layer half: the Agent schema
declares no uniqueness constraint (unique index equivalent) on the
owning-account reference `userId` — the path has no `unique` option and no
declared index involves `userId` at all, let alone a unique one. -/
theorem C5_counterexample :
    agentSchemaUserIdUnique = false ∧
    agentSchemaIndexes.all
      (fun i => !i.unique && !(i.fields.contains ("userId"))) = true := by
  decide

/-- C5 amended: at-most-one Agent Profile per account holds only at the
application level. From a state with no profile for the account, a first
`apply()` succeeds and leaves exactly one profile owned by the account, and
a second sequential `apply()` fails with the duplicate-application
conflict; the storage layer itself declares no unique index on the owner. -/
theorem C5_amended_single_profile (uid : Nat) (b1 b2 : AgentController.ApplyBody)
    (st : St) (u : UserDoc)
    (hu : findUser uid st = Option.some u)
    (hnv : (u.agentVerificationStatus == VerificationStatus.verified) = false)
    (hno : st.agents.find? (fun a => a.userId == uid) = Option.none) :
    ∃ st1 a e, AgentController.apply (Option.some uid) b1 st = Except.ok (st1, a) ∧
      (st1.agents.filter (fun x => x.userId == uid)).length = 1 ∧
      AgentController.apply (Option.some uid) b2 st1 = Except.error e ∧
      e.message = "Agent application already submitted" ∧ e.statusCode = 400 := by
  have hnv' : ¬((u.agentVerificationStatus == VerificationStatus.verified) = true) := by
    simp [hnv]
  have hagent : (AgentController.newAgentProfile uid b1 st).userId = uid := rfl
  unfold AgentController.apply
  dsimp only
  rw [hu]
  dsimp only
  rw [if_neg hnv', hno]
  dsimp only
  refine ⟨_, _,
    { message := "Agent application already submitted", statusCode := 400 },
    rfl, ?_, ?_, rfl, rfl⟩
  · show (List.filter (fun x => x.userId == uid)
        (st.agents ++ [AgentController.newAgentProfile uid b1 st])).length = 1
    rw [List.filter_append, filter_eq_nil_of_find?_none _ _ hno]
    simp [hagent]
  · have hu2 : findUser uid
        { st with agents := st.agents ++ [AgentController.newAgentProfile uid b1 st],
                  nextId := st.nextId + 1 } = Option.some u := hu
    have hfind := findUser_saveUser _
      { u with agentVerificationStatus := VerificationStatus.pending,
               agentId := Option.some (AgentController.newAgentProfile uid b1 st).id } u uid hu2 rfl
    rw [hfind]
    dsimp only
    rw [if_neg (by simp : ¬((VerificationStatus.pending == VerificationStatus.verified) = true))]
    rw [show (saveUser
        { u with agentVerificationStatus := VerificationStatus.pending,
                 agentId := Option.some (AgentController.newAgentProfile uid b1 st).id }
        { st with agents := st.agents ++ [AgentController.newAgentProfile uid b1 st],
                  nextId := st.nextId + 1 }).agents
      = st.agents ++ [AgentController.newAgentProfile uid b1 st] from rfl]
    rw [find?_append_none _ _ _ hno]
    simp [List.find?_cons, hagent]

/-- Concrete instantiation of `C5_amended_single_profile`: account 1 with no
existing profile applies twice from `c2St`. -/
theorem C5_amended_witness :
    ∃ st1 a e,
      AgentController.apply (Option.some 1) applyBody0 c2St = Except.ok (st1, a) ∧
      (st1.agents.filter (fun x => x.userId == 1)).length = 1 ∧
      AgentController.apply (Option.some 1) applyBody0 st1 = Except.error e ∧
      e.message = "Agent application already submitted" ∧ e.statusCode = 400 :=
  C5_amended_single_profile 1 applyBody0 applyBody0 c2St freshApplicant
    (by decide) (by decide) (by decide)

/-- C10: for an admin actor and an existing Agent Profile whose owner
exists, `verifyAgent` succeeds for every action string other than the exact
string `approve` — including misspelled or arbitrary values — and treats it
as a rejection: the profile's `isActive` becomes false and the owning
account's `agentVerificationStatus` becomes `rejected`; no invalid-argument
error exists for unrecognized actions. -/
theorem C10_nonapprove_is_reject (actor : UserDoc) (aid : Nat) (action : String)
    (st : St) (ag : AgentDoc) (owner : UserDoc)
    (hrole : actor.role = Role.admin)
    (hag : findAgent aid st = Option.some ag)
    (howner : findUser ag.userId st = Option.some owner)
    (hact : (action == "approve") = false) :
    ∃ st', AgentController.verifyAgent (Option.some actor) aid action st
        = Except.ok st' ∧
      findAgent aid st' = Option.some { ag with isActive := false } ∧
      findUser ag.userId st' = Option.some
        { owner with agentVerificationStatus := VerificationStatus.rejected } := by
  unfold AgentController.verifyAgent
  rw [if_neg (by simp [hrole])]
  rw [hag]
  dsimp only
  rw [hact]
  have h2 : findUser ag.userId (saveAgent { ag with isActive := false } st)
      = Option.some owner := howner
  rw [h2]
  dsimp only
  refine ⟨_, rfl, ?_, ?_⟩
  · have := findAgent_saveAgent st { ag with isActive := false } ag aid hag rfl
    exact this
  · exact findUser_saveUser (saveAgent { ag with isActive := false } st)
      { owner with agentVerificationStatus := VerificationStatus.rejected }
      owner ag.userId h2 rfl

/-- Agent Profile 7, owned by account 3, currently active. -/
def c10Agent : AgentDoc :=
  { id := 7, userId := 3, bio := "bio", licenseNumber := "L-2",
    office := Option.none, isActive := true }

/-- Account 3, the pending owner of Agent Profile 7. -/
def c10Owner : UserDoc :=
  { id := 3, role := Role.agent,
    onboardingCompleted := { buyer := false, seller := false, agent := false },
    isProfileComplete := false, agentVerificationStatus := VerificationStatus.pending,
    agentId := Option.some 7, officeId := Option.none,
    savedSearches := [], preferences := emptyPreferences }

/-- Store with the pending owner and its profile. -/
def c10St : St :=
  { users := [c10Owner], agents := [c10Agent], offices := [], properties := [],
    nextId := 20 }

/-- Concrete instantiation of `C10_nonapprove_is_reject`: an admin submits
the unrecognized action string `deny`; the call succeeds, deactivates
profile 7 and marks account 3 rejected. -/
theorem C10_witness :
    ∃ st', AgentController.verifyAgent (Option.some adminUser) 7 "deny" c10St
        = Except.ok st' ∧
      findAgent 7 st' = Option.some { c10Agent with isActive := false } ∧
      findUser c10Agent.userId st' = Option.some
        { c10Owner with agentVerificationStatus := VerificationStatus.rejected } :=
  C10_nonapprove_is_reject adminUser 7 "deny" c10St c10Agent c10Owner rfl
    (by decide) (by decide) (by decide)

/-- A pending write of the Mongo session transaction used by
`OfficeController`: every persisted effect of the transaction is one of
these. -/
inductive StoreWrite
  | putOffice (o : OfficeDoc)
  | putAgent (a : AgentDoc)
  | putUser (u : UserDoc)
deriving Repr, DecidableEq

/-- Effect of a single committed write on the store: `putOffice` inserts the
created office (consuming the generated id), the save writes replace the
document with the matching id. -/
def applyWrite (st : St) : StoreWrite → St
  | StoreWrite.putOffice o =>
    { st with offices := st.offices ++ [o], nextId := st.nextId + 1 }
  | StoreWrite.putAgent a =>
    { st with agents := st.agents.map (fun x => if x.id == a.id then a else x) }
  | StoreWrite.putUser u =>
    { st with users := st.users.map (fun x => if x.id == u.id then u else x) }

/-- `session.commitTransaction()`: apply the pending writes in order. -/
def commitWrites (st : St) (ws : List StoreWrite) : St :=
  ws.foldl applyWrite st

namespace OfficeController

/-- Request body of `POST /api/offices/create`; `manager` is the nominated
Agent Profile id and `name` stands for the whitelisted descriptive fields.
`franchiseId` is kept as the raw optional string (absent and empty are both
falsy in the source's required-field check). -/
structure CreateOfficeBody where
  manager : Option Nat
  franchiseId : Option String
  name : String
  isActive : Option Bool
deriving Repr, DecidableEq

/-- The Office document `Office.create` builds inside `createOffice`. -/
def newOffice (body : CreateOfficeBody) (managerAgentId : Nat) (st : St) : OfficeDoc :=
  { id := st.nextId
    name := body.name
    franchiseId := body.franchiseId.getD ""
    manager := managerAgentId
    agents := [managerAgentId]
    statistics :=
      { totalAgents := 1, activeListings := 0, soldThisYear := 0,
        totalVolume := 0, averageSalePrice := 0, averageDaysOnMarket := 0 }
    isActive := body.isActive.getD true }

/-- The transactional body of `OfficeController.createOffice`: all
validations, then the three writes (office create, manager Agent Profile
office link, manager account role/office update) recorded on the session.
Any thrown `AppError` aborts before anything is committed. -/
def createOfficeTx (actorId : Option Nat) (body : CreateOfficeBody) (st : St) :
    Except AppError (OfficeDoc × List StoreWrite) :=
  match actorId with
  | Option.none => Except.error { message := "Unauthorized", statusCode := 401 }
  | Option.some uid =>
    match body.manager with
    | Option.none =>
      Except.error { message := "Manager (agent id) is required", statusCode := 400 }
    | Option.some managerId =>
      if body.franchiseId.getD "" == "" then
        Except.error { message := "Franchise ID is required", statusCode := 400 }
      else
        match findUser uid st with
        | Option.none => Except.error { message := "User not found", statusCode := 404 }
        | Option.some currentUser =>
          if !([Role.admin, Role.manager].contains currentUser.role) then
            Except.error
              { message := "Only admin or manager can create offices", statusCode := 403 }
          else
            match st.offices.find? (fun o => o.franchiseId == body.franchiseId.getD "") with
            | Option.some _ =>
              Except.error { message := "Franchise ID already in use", statusCode := 400 }
            | Option.none =>
              match findAgent managerId st with
              | Option.none =>
                Except.error { message := "Manager agent not found", statusCode := 404 }
              | Option.some managerAgent =>
                match st.users.find?
                    (fun x => x.agentId == Option.some managerAgent.id) with
                | Option.none =>
                  Except.error
                    { message := "Manager must be a verified agent", statusCode := 400 }
                | Option.some managerUser =>
                  if managerUser.agentVerificationStatus != VerificationStatus.verified then
                    Except.error
                      { message := "Manager must be a verified agent", statusCode := 400 }
                  else
                    let office := newOffice body managerAgent.id st
                    Except.ok (office,
                      [ StoreWrite.putOffice office,
                        StoreWrite.putAgent { managerAgent with office := Option.some office.id },
                        StoreWrite.putUser
                          { managerUser with role := Role.manager,
                                             officeId := Option.some office.id } ])

/-- `OfficeController.createOffice`: run the transactional body; commit the
session's writes on success, abort (leaving the store untouched) on any
error. Returns the controller result together with the resulting store. -/
def createOffice (actorId : Option Nat) (body : CreateOfficeBody) (st : St) :
    Except AppError OfficeDoc × St :=
  match createOfficeTx actorId body st with
  | Except.ok (office, ws) => (Except.ok office, commitWrites st ws)
  | Except.error e => (Except.error e, st)

end OfficeController

/-- Shape of a successful `createOfficeTx`: the validations that were
passed and the exact three writes recorded on the session. -/
theorem createOfficeTx_ok_shape (actorId : Option Nat)
    (body : OfficeController.CreateOfficeBody) (st : St) (office : OfficeDoc)
    (ws : List StoreWrite)
    (h : OfficeController.createOfficeTx actorId body st = Except.ok (office, ws)) :
    ∃ managerId managerAgent managerUser,
      body.manager = Option.some managerId ∧
      findAgent managerId st = Option.some managerAgent ∧
      st.users.find? (fun x => x.agentId == Option.some managerAgent.id)
          = Option.some managerUser ∧
      managerUser.agentVerificationStatus = VerificationStatus.verified ∧
      office = OfficeController.newOffice body managerAgent.id st ∧
      ws = [ StoreWrite.putOffice office,
             StoreWrite.putAgent { managerAgent with office := Option.some office.id },
             StoreWrite.putUser { managerUser with role := Role.manager,
                                                   officeId := Option.some office.id } ] := by
  unfold OfficeController.createOfficeTx at h
  cases actorId with
  | none => exact Except.noConfusion h
  | some uid =>
    dsimp only at h
    cases hbm : body.manager with
    | none => rw [hbm] at h; exact Except.noConfusion h
    | some managerId =>
      rw [hbm] at h
      dsimp only at h
      by_cases hfr : (body.franchiseId.getD "" == "") = true
      · rw [if_pos hfr] at h; exact Except.noConfusion h
      · rw [if_neg hfr] at h
        cases hfu : findUser uid st with
        | none => rw [hfu] at h; exact Except.noConfusion h
        | some currentUser =>
          rw [hfu] at h
          dsimp only at h
          by_cases hrole : (!([Role.admin, Role.manager].contains currentUser.role)) = true
          · rw [if_pos hrole] at h; exact Except.noConfusion h
          · rw [if_neg hrole] at h
            cases hfo : st.offices.find? (fun o => o.franchiseId == body.franchiseId.getD "") with
            | some o => rw [hfo] at h; exact Except.noConfusion h
            | none =>
              rw [hfo] at h
              dsimp only at h
              cases hfa : findAgent managerId st with
              | none => rw [hfa] at h; exact Except.noConfusion h
              | some managerAgent =>
                rw [hfa] at h
                dsimp only at h
                cases hfmu : st.users.find?
                    (fun x => x.agentId == Option.some managerAgent.id) with
                | none => rw [hfmu] at h; exact Except.noConfusion h
                | some managerUser =>
                  rw [hfmu] at h
                  dsimp only at h
                  by_cases hver : (managerUser.agentVerificationStatus
                      != VerificationStatus.verified) = true
                  · rw [if_pos hver] at h; exact Except.noConfusion h
                  · rw [if_neg hver] at h
                    simp only [Except.ok.injEq, Prod.mk.injEq] at h
                    obtain ⟨ho, hw⟩ := h
                    refine ⟨managerId, managerAgent, managerUser, rfl, hfa, hfmu, ?_, ho.symm, ?_⟩
                    · simpa using hver
                    · rw [← hw, ho]

/-- C6: `createOffice` is atomic. If it fails at any point the resulting
store is exactly the input store — no Office document, Agent Profile
office-link update, or account role/office update is persisted — and on
success the three writes are committed together. -/
theorem C6_createOffice_atomic (actorId : Option Nat)
    (body : OfficeController.CreateOfficeBody) (st : St) :
    (∀ e, (OfficeController.createOffice actorId body st).1 = Except.error e →
        (OfficeController.createOffice actorId body st).2 = st) ∧
    (∀ office, (OfficeController.createOffice actorId body st).1 = Except.ok office →
        ∃ (managerAgent : AgentDoc) (managerUser : UserDoc),
          (OfficeController.createOffice actorId body st).2
            = commitWrites st
                [ StoreWrite.putOffice office,
                  StoreWrite.putAgent
                    { managerAgent with office := Option.some office.id },
                  StoreWrite.putUser
                    { managerUser with role := Role.manager,
                                       officeId := Option.some office.id } ]) := by
  unfold OfficeController.createOffice
  cases htx : OfficeController.createOfficeTx actorId body st with
  | error e =>
    refine ⟨fun e' h => rfl, fun office h => ?_⟩
    dsimp only at h
    exact Except.noConfusion h
  | ok p =>
    obtain ⟨o, ws⟩ := p
    refine ⟨fun e' h => by simp at h, fun office h => ?_⟩
    have hoo : o = office := by simpa using h
    subst hoo
    obtain ⟨mid, managerAgent, managerUser, hbm, hfa, hfmu, hver, ho, hw⟩ :=
      createOfficeTx_ok_shape actorId body st o ws htx
    refine ⟨managerAgent, managerUser, ?_⟩
    rw [hw]

/-- A concrete createOffice request body. -/
def c7Body : OfficeController.CreateOfficeBody :=
  { manager := Option.some 10, franchiseId := Option.some "RMX-100",
    name := "Downtown", isActive := Option.none }

/-- Concrete instantiation of `C6_createOffice_atomic`, failing branch: an
unauthenticated `createOffice` call leaves the store untouched. -/
theorem C6_witness :
    (OfficeController.createOffice Option.none c7Body c2St).2 = c2St :=
  (C6_createOffice_atomic Option.none c7Body c2St).1
    { message := "Unauthorized", statusCode := 401 } rfl

/-- C7: on any successful `createOffice`, the created Office's agents list
is exactly the nominated manager profile, its statistics count one agent,
and the manager's owning account (the first account whose `agentId` is the
nominated profile) is persisted with role `manager` and `officeId` pointing
at the new office. -/
theorem C7_createOffice_success (actorId : Option Nat)
    (body : OfficeController.CreateOfficeBody) (st st' : St) (office : OfficeDoc)
    (h : OfficeController.createOffice actorId body st = (Except.ok office, st')) :
    body.manager = Option.some office.manager ∧
    office.agents = [office.manager] ∧
    office.statistics.totalAgents = 1 ∧
    ∃ (managerUser : UserDoc),
      st.users.find? (fun x => x.agentId == body.manager) = Option.some managerUser ∧
      findUser managerUser.id st' = Option.some
        { managerUser with role := Role.manager,
                           officeId := Option.some office.id } := by
  unfold OfficeController.createOffice at h
  cases htx : OfficeController.createOfficeTx actorId body st with
  | error e =>
    rw [htx] at h
    simp at h
  | ok p =>
    obtain ⟨o, ws⟩ := p
    rw [htx] at h
    dsimp only at h
    simp only [Prod.mk.injEq, Except.ok.injEq] at h
    obtain ⟨ho', hst⟩ := h
    subst ho'
    subst hst
    obtain ⟨mid, managerAgent, managerUser, hbm, hfa, hfmu, hver, ho, hw⟩ :=
      createOfficeTx_ok_shape actorId body st o ws htx
    have hmaid : managerAgent.id = mid := by
      have := List.find?_some (show List.find? (fun a => a.id == mid) st.agents
        = Option.some managerAgent from hfa)
      simpa using this
    have hm : o.manager = managerAgent.id := by rw [ho]; rfl
    refine ⟨?_, ?_, ?_, ?_⟩
    · rw [hbm, hm, hmaid]
    · rw [ho]; rfl
    · rw [ho]; rfl
    · refine ⟨managerUser, ?_, ?_⟩
      · rw [hbm, ← hmaid]
        exact hfmu
      · subst hw
        have hmem : managerUser ∈ st.users := List.mem_of_find?_eq_some hfmu
        exact find?_map_replace UserDoc.id st.users
          { managerUser with role := Role.manager,
                             officeId := Option.some o.id }
          managerUser.id rfl ⟨managerUser, hmem, rfl⟩

/-- A verified agent account owning Agent Profile 10. -/
def c7Verified : UserDoc :=
  { id := 2, role := Role.agent,
    onboardingCompleted := { buyer := false, seller := false, agent := false },
    isProfileComplete := false, agentVerificationStatus := VerificationStatus.verified,
    agentId := Option.some 10, officeId := Option.none,
    savedSearches := [], preferences := emptyPreferences }

/-- Agent Profile 10, owned by account 2 and active. -/
def c7Agent : AgentDoc :=
  { id := 10, userId := 2, bio := "bio", licenseNumber := "L-3",
    office := Option.none, isActive := true }

/-- Store for the successful office creation: an admin, a verified agent
with a profile, no offices yet. -/
def c7St : St :=
  { users := [adminUser, c7Verified], agents := [c7Agent], offices := [],
    properties := [], nextId := 30 }

/-- The office `createOffice` creates from `c7Body` over `c7St`. -/
def c7Office : OfficeDoc := OfficeController.newOffice c7Body 10 c7St

/-- Concrete instantiation of `C7_createOffice_success`: the admin creates
an office managed by profile 10 with franchise id RMX-100. -/
theorem C7_witness :
    c7Body.manager = Option.some c7Office.manager ∧
    c7Office.agents = [c7Office.manager] ∧
    c7Office.statistics.totalAgents = 1 ∧
    ∃ (managerUser : UserDoc),
      c7St.users.find? (fun x => x.agentId == c7Body.manager) = Option.some managerUser ∧
      findUser managerUser.id (OfficeController.createOffice (Option.some 99) c7Body c7St).2
          = Option.some
            { managerUser with role := Role.manager,
                               officeId := Option.some c7Office.id } :=
  C7_createOffice_success (Option.some 99) c7Body c7St
    (OfficeController.createOffice (Option.some 99) c7Body c7St).2 c7Office rfl

namespace PropertyController

/-- Request body of `assignProperty`: licensed agent and office ids. -/
structure AssignBody where
  agentId : Option Nat
  officeId : Option Nat
deriving Repr, DecidableEq

/-- `PropertyController.assignProperty`: admin/manager assigns a
seller-submitted property. Sets `listingAgent` from the body, sets
`listingOffice` to the body's office id or — via `officeId || user.office` —
falls back to reading `user.office` on the actor's User document, and flips
the status to active. -/
def assignProperty (actor : Option UserDoc) (propId : Nat) (body : AssignBody)
    (st : St) : Except AppError (St × PropertyDoc) :=
  match actor with
  | Option.none => Except.error { message := "Unauthorized", statusCode := 401 }
  | Option.some user =>
    if !([Role.admin, Role.manager].contains user.role) then
      Except.error { message := "Access denied", statusCode := 403 }
    else
      match findProperty propId st with
      | Option.none => Except.error { message := "Property not found", statusCode := 404 }
      | Option.some property =>
        let property :=
          { property with
              listingAgent := body.agentId
              listingOffice :=
                match body.officeId with
                | Option.some o => Option.some o
                | Option.none => user.office
              status := PropertyStatus.active }
        Except.ok (saveProperty property st, property)

end PropertyController

/-- A manager account whose office reference (`officeId`) is office 7. -/
def managerOfOffice7 : UserDoc :=
  { id := 4, role := Role.manager,
    onboardingCompleted := { buyer := false, seller := false, agent := false },
    isProfileComplete := false, agentVerificationStatus := VerificationStatus.none,
    agentId := Option.some 21, officeId := Option.some 7,
    savedSearches := [], preferences := emptyPreferences }

/-- A seller account. -/
def sellerUser : UserDoc :=
  { id := 9, role := Role.seller,
    onboardingCompleted := { buyer := false, seller := true, agent := false },
    isProfileComplete := true, agentVerificationStatus := VerificationStatus.none,
    agentId := Option.none, officeId := Option.none,
    savedSearches := [], preferences := emptyPreferences }

/-- Property 3 as stored by `submitProperty`: seller-submitted, pending, no
agent or office. -/
def pendingSubmission : PropertyDoc :=
  { id := 3, listingAgent := Option.none, listingOffice := Option.none,
    seller := Option.some 9, status := PropertyStatus.pending }

/-- Store with the manager, the seller and the pending submission. -/
def c8St : St :=
  { users := [managerOfOffice7, sellerUser], agents := [], offices := [],
    properties := [pendingSubmission], nextId := 40 }

/-- The property document `assignProperty` saves for the manager's call that
leaves `officeId` unspecified. -/
def c8AssignedProp : PropertyDoc :=
  { id := 3, listingAgent := Option.some 10, listingOffice := Option.none,
    seller := Option.some 9, status := PropertyStatus.active }

/-- C8 evaluated at the failing input: a manager of office 7 assigns
property 3 to agent profile 10 without specifying an office. The claimed
default to the actor's office does not happen — the code reads
`user.office`, a path absent from the User document (whose field is
`officeId`), so `listingOffice` ends up unset. The parts of the claim about
`listingAgent`, the status flip, and Forbidden for other roles hold. -/
theorem C8_assign_office_default_broken :
    PropertyController.assignProperty (Option.some managerOfOffice7) 3
        { agentId := Option.some 10, officeId := Option.none } c8St
      = Except.ok (saveProperty c8AssignedProp c8St, c8AssignedProp) ∧
    c8AssignedProp.listingOffice = Option.none ∧
    managerOfOffice7.officeId = Option.some 7 ∧
    c8AssignedProp.listingAgent = Option.some 10 ∧
    c8AssignedProp.status = PropertyStatus.active ∧
    PropertyController.assignProperty (Option.some sellerUser) 3
        { agentId := Option.some 10, officeId := Option.none } c8St
      = Except.error { message := "Access denied", statusCode := 403 } := by
  refine ⟨?_, rfl, rfl, rfl, rfl, ?_⟩ <;> decide

namespace UserController

/-- Request body of `POST /api/users/:id/saved-searches` after the source's
destructuring defaults (`emailAlerts = false`, `frequency = "weekly"`);
`filters` must be an object, modelled as an optional value. -/
structure AddSearchBody where
  name : String
  filters : Option SearchFilters
  emailAlerts : Bool
  frequency : String
deriving Repr, DecidableEq

/-- `UserController.addSavedSearch`: self-service creation of a saved
search, rejected once the account already holds 10. -/
def addSavedSearch (actorId : Option Nat) (targetId : Nat) (body : AddSearchBody)
    (st : St) : Except AppError (St × SavedSearch) :=
  if actorId != Option.some targetId then
    Except.error { message := "Insufficient permissions", statusCode := 403 }
  else if body.name == "" || body.filters.isNone then
    Except.error { message := "Valid name and filters are required", statusCode := 400 }
  else
    match findUser targetId st with
    | Option.none => Except.error { message := "User not found", statusCode := 404 }
    | Option.some user =>
      if user.savedSearches.length ≥ 10 then
        Except.error
          { message := "Maximum saved searches limit reached (10)", statusCode := 400 }
      else
        let sr : SavedSearch :=
          { name := body.name, filters := body.filters.getD emptyFilters,
            emailAlerts := body.emailAlerts, frequency := body.frequency }
        Except.ok (saveUser { user with savedSearches := user.savedSearches ++ [sr] } st, sr)

end UserController

/-- Ten identical saved searches, filling an account to the cap. -/
def tenSearches : List SavedSearch :=
  List.replicate 10
    { name := "s", filters := emptyFilters, emailAlerts := false, frequency := "weekly" }

/-- A buyer account already holding 10 saved searches. -/
def buyerAtCap : UserDoc :=
  { id := 1, role := Role.buyer,
    onboardingCompleted := { buyer := false, seller := false, agent := false },
    isProfileComplete := false, agentVerificationStatus := VerificationStatus.none,
    agentId := Option.none, officeId := Option.none,
    savedSearches := tenSearches, preferences := emptyPreferences }

/-- Store holding only the at-cap buyer. -/
def c9St : St :=
  { users := [buyerAtCap], agents := [], offices := [], properties := [], nextId := 70 }

/-- Buyer-onboarding payload with one property type, which makes the
onboarding helper seed its default saved search. -/
def c9Data : OnboardingData :=
  { propertyTypes := ["house"], priceRange := Option.none, locations := [],
    notifications := Option.none, bedrooms := Option.none, bathrooms := Option.none,
    emailAlerts := false, hasProperty := false, propertyType := Option.none,
    estimatedValue := Option.none, planToSell := Option.none,
    propertyAddress := Option.none }

/-- Scenario refuting the capacity invariant of C9: the at-cap buyer
completes buyer onboarding with a property type given; the seeding push has
no capacity check and the persisted account ends with 11 saved searches. -/
def c9Run : Bool :=
  match RoleController.completeOnboarding (Option.some 1) 1 "buyer" c9Data c9St with
  | Except.ok (st', u') =>
    u'.savedSearches.length == 11 &&
    (match findUser 1 st' with
     | Option.some v => v.savedSearches.length == 11
     | Option.none => false)
  | Except.error _ => false

/-- C9 fails on the code: the buyer-onboarding seeding step pushes a saved
search without consulting the 10-search cap, so an account already at the
cap ends up with 11 saved searches. -/
theorem C9_counterexample : c9Run = true := by decide

/-- C9 amended: `addSavedSearch` does enforce the cap — it fails once the
account already holds 10, and any account it successfully writes holds at
most 10 saved searches — but the buyer-onboarding seeding step is not
bounded (see the counterexample). -/
theorem C9_amended_cap (actorId : Option Nat) (targetId : Nat)
    (body : UserController.AddSearchBody) (st : St) :
    (∀ (st' : St) (sr : SavedSearch),
        UserController.addSavedSearch actorId targetId body st = Except.ok (st', sr) →
        ∃ (u' : UserDoc), findUser targetId st' = Option.some u' ∧
          u'.savedSearches.length ≤ 10) ∧
    (∀ (u : UserDoc), findUser targetId st = Option.some u →
        u.savedSearches.length ≥ 10 →
        actorId = Option.some targetId →
        (body.name == "" || body.filters.isNone) = false →
        UserController.addSavedSearch actorId targetId body st
          = Except.error
            { message := "Maximum saved searches limit reached (10)", statusCode := 400 }) := by
  constructor
  · intro st' sr h
    unfold UserController.addSavedSearch at h
    by_cases h1 : (actorId != Option.some targetId) = true
    · rw [if_pos h1] at h
      exact Except.noConfusion h
    · rw [if_neg h1] at h
      by_cases h2 : (body.name == "" || body.filters.isNone) = true
      · rw [if_pos h2] at h
        exact Except.noConfusion h
      · rw [if_neg h2] at h
        cases hfu : findUser targetId st with
        | none => rw [hfu] at h; exact Except.noConfusion h
        | some user =>
          rw [hfu] at h
          dsimp only at h
          by_cases hcap : user.savedSearches.length ≥ 10
          · rw [if_pos hcap] at h
            exact Except.noConfusion h
          · rw [if_neg hcap] at h
            simp only [Except.ok.injEq, Prod.mk.injEq] at h
            obtain ⟨hst, hsr⟩ := h
            subst hst
            refine ⟨_, findUser_saveUser st _ user targetId hfu rfl, ?_⟩
            have hlt : user.savedSearches.length < 10 := Nat.lt_of_not_le hcap
            simp only [List.length_append, List.length_cons, List.length_nil]
            omega
  · intro u hfu hcap hauth hvalid
    unfold UserController.addSavedSearch
    subst hauth
    rw [if_neg (by simp)]
    rw [if_neg (by simp [hvalid])]
    rw [hfu]
    dsimp only
    rw [if_pos hcap]

/-- A valid add-search body. -/
def c9Body : UserController.AddSearchBody :=
  { name := "new", filters := Option.some emptyFilters, emailAlerts := false,
    frequency := "weekly" }

/-- The saved search `addSavedSearch` builds from `c9Body`. -/
def c9OkSearch : SavedSearch :=
  { name := "new", filters := emptyFilters, emailAlerts := false, frequency := "weekly" }

/-- Account 1 after a successful `addSavedSearch` from the empty state. -/
def c9OkUser : UserDoc := { freshApplicant with savedSearches := [c9OkSearch] }

/-- Concrete instantiation of `C9_amended_cap`: a successful add on an
account with no saved searches stays within the cap, and the at-cap buyer's
add is rejected with the limit error. -/
theorem C9_amended_witness :
    (∃ (u' : UserDoc), findUser 1 (saveUser c9OkUser c2St) = Option.some u' ∧
        u'.savedSearches.length ≤ 10) ∧
    UserController.addSavedSearch (Option.some 1) 1 c9Body c9St
      = Except.error
        { message := "Maximum saved searches limit reached (10)", statusCode := 400 } :=
  ⟨(C9_amended_cap (Option.some 1) 1 c9Body c2St).1 (saveUser c9OkUser c2St)
      c9OkSearch (by decide),
   (C9_amended_cap (Option.some 1) 1 c9Body c9St).2 buyerAtCap (by decide)
      (by decide) rfl (by decide)⟩
